import Mathlib

set_option maxRecDepth 4000

/-!
Shallow embedding of the GitHub-analyst agent repository.

The repository is Python: five modules, of which `github_tools.py`,
`web_search_tools.py` and `github_agent.py` hold the core logic verified
here.  The embedding models the JSON-like subset of Python values that the
tools manipulate, Python attribute/item access with its exception behaviour
(`AttributeError`, `TypeError`), Python truthiness, `json.dumps` with and
without `indent=2`, and each tool as a pure function of the upstream
response (the single blocking GET of `_make_github_request` is abstracted
as the argument `data`, which is exactly the value that call returns).

Python floats are modelled as rationals: `round(x, 2)` becomes exact
round-half-to-even on the rational value.  Exceptions are modelled by
`Except String` whose error value names the Python exception class raised.
-/

/-- Values of the JSON-like subset of Python the tools manipulate:
`None`, booleans, ints, floats (modelled as rationals), strings, lists and
string-keyed dicts (items in insertion order, keys unique). -/
inductive PyVal where
  | none : PyVal
  | bool (b : Bool) : PyVal
  | int (n : Int) : PyVal
  | rat (q : ℚ) : PyVal
  | str (s : String) : PyVal
  | list (xs : List PyVal) : PyVal
  | dict (xs : List (String × PyVal)) : PyVal

/-- Computations that may raise a Python exception; the error value names
the exception class (for example "TypeError" or "AttributeError"). -/
abbrev PyM := Except String

/-- First binding of a key in the item list of a dict (keys are unique in
a Python dict, so first match is the binding). -/
def pyLookup : List (String × PyVal) → String → Option PyVal
  | [], _ => Option.none
  | (k, v) :: xs, key => if k = key then some v else pyLookup xs key

/-- Python d.get(key, default): the default is used only when the key is
absent; calling .get on a non-dict raises AttributeError (in the source
this happens when an upstream field expected to be an object is null or a
non-object). -/
def pyGetD : PyVal → String → PyVal → PyM PyVal
  | .dict xs, k, d => .ok ((pyLookup xs k).getD d)
  | _, _, _ => .error "AttributeError"

/-- Python d.get(key) with its implicit default of None. -/
def pyGet (v : PyVal) (k : String) : PyM PyVal :=
  pyGetD v k .none

/-- Python truthiness of a value, as used by bare if conditions in the
source. -/
def pyTruthy : PyVal → Bool
  | .none => false
  | .bool b => b
  | .int n => n != 0
  | .rat q => q != 0
  | .str s => s != ""
  | .list xs => !xs.isEmpty
  | .dict xs => !xs.isEmpty

/-- Python len(): defined on strings (code points), lists and dicts;
raises TypeError otherwise — in particular len(None) raises, which is how
a null release body crashes the releases tool. -/
def pyLen : PyVal → PyM Int
  | .str s => .ok (s.length : Int)
  | .list xs => .ok (xs.length : Int)
  | .dict xs => .ok (xs.length : Int)
  | _ => .error "TypeError"

/-- Numeric view of a value: Python compares bools, ints and floats as
numbers (True == 1, 1 == 1.0). -/
def pyNum : PyVal → Option ℚ
  | .bool b => some (if b then 1 else 0)
  | .int n => some (n : ℚ)
  | .rat q => some q
  | _ => Option.none

mutual
/-- Python equality (==) on these values.  Numbers compare across bool,
int and float; dicts are compared itemwise in order, which agrees with
Python whenever the two dicts list their keys in the same order (every use
in the source compares a string against list elements or dict keys, where
the two definitions agree exactly). -/
def pyEq : PyVal → PyVal → Bool
  | .str a, .str b => a == b
  | .none, .none => true
  | .list xs, .list ys => pyEqList xs ys
  | .dict xs, .dict ys => pyEqObj xs ys
  | a, b =>
    match pyNum a, pyNum b with
    | some x, some y => x == y
    | _, _ => false

/-- Pointwise Python equality of two lists. -/
def pyEqList : List PyVal → List PyVal → Bool
  | [], [] => true
  | x :: xs, y :: ys => pyEq x y && pyEqList xs ys
  | _, _ => false

/-- Itemwise Python equality of two dict item lists. -/
def pyEqObj : List (String × PyVal) → List (String × PyVal) → Bool
  | [], [] => true
  | (k, v) :: xs, (l, w) :: ys => k == l && pyEq v w && pyEqObj xs ys
  | _, _ => false
end

/-- Python membership (x in c): key membership for dicts, element
membership (via ==) for lists, substring test for strings; other
containers raise TypeError.  Every tool runs this with x = "error" on the
helper result. -/
def pyContains (x : PyVal) : PyVal → PyM Bool
  | .dict xs => .ok (xs.any (fun kv => pyEq x (.str kv.1)))
  | .list xs => .ok (xs.any (fun e => pyEq x e))
  | .str s =>
    match x with
    | .str t => .ok (decide (t.toList <:+: s.toList))
    | _ => .error "TypeError"
  | _ => .error "TypeError"

/-- Python iteration over a value, as in for-loops: a list yields its
elements, a dict yields its keys, a string yields its one-character
substrings; other values raise TypeError. -/
def pyListElems : PyVal → PyM (List PyVal)
  | .list xs => .ok xs
  | .dict xs => .ok (xs.map (fun kv => PyVal.str kv.1))
  | .str s => .ok (s.toList.map (fun c => PyVal.str (String.singleton c)))
  | _ => .error "TypeError"

/-- Lower-case hexadecimal digit, as json.dumps emits in escapes. -/
def hexDigit (n : Nat) : Char :=
  if n < 10 then Char.ofNat (48 + n) else Char.ofNat (87 + n)

/-- Four lower-case hexadecimal digits of n, as in a JSON escape. -/
def hex4 (n : Nat) : String :=
  String.mk [hexDigit (n / 4096 % 16), hexDigit (n / 256 % 16),
             hexDigit (n / 16 % 16), hexDigit (n % 16)]

/-- Escaping of one character by json.dumps with its default
ensure_ascii=True: the two-character escapes for quote, backslash and the
common control characters, printable ASCII verbatim, and everything else
as a unicode escape (astral characters as a surrogate pair). -/
def escChar (c : Char) : String :=
  if c = '"' then "\\\""
  else if c = '\\' then "\\\\"
  else if c = '\n' then "\\n"
  else if c = '\t' then "\\t"
  else if c = '\r' then "\\r"
  else if c.toNat = 8 then "\\b"
  else if c.toNat = 12 then "\\f"
  else if 32 ≤ c.toNat && c.toNat ≤ 126 then String.singleton c
  else if c.toNat < 65536 then "\\u" ++ hex4 c.toNat
  else
    "\\u" ++ hex4 (55296 + (c.toNat - 65536) / 1024) ++
    "\\u" ++ hex4 (56320 + (c.toNat - 65536) % 1024)

/-- A JSON string literal for s, as json.dumps renders it. -/
def escString (s : String) : String :=
  "\"" ++ String.join (s.toList.map escChar) ++ "\""

/-- Least k with d dividing 10 to the k, when one exists below 60: the
number of decimal digits needed to write a rational with denominator d
exactly. -/
def decExp (d : Nat) : Option Nat :=
  (List.range 60).find? (fun k => decide (d ∣ 10 ^ k))

/-- Zero-pad a digit string on the left to width k. -/
def padZeros (s : String) (k : Nat) : String :=
  String.mk (List.replicate (k - s.length) '0') ++ s

/-- Rendering of a float by repr/json.dumps, for floats whose value is
exactly a decimal fraction (every float the source produces — percentages
rounded to 2 decimals — is one); CPython prints the shortest decimal
digits, here the minimal exact ones.  Rationals with no finite decimal
expansion cannot arise from the source and get a fallback rendering. -/
def floatRepr (q : ℚ) : String :=
  match decExp q.den with
  | some 0 => toString q.num ++ ".0"
  | some (k + 1) =>
    let sign := if q < 0 then "-" else ""
    let scaled := q.num.natAbs * (10 ^ (k + 1) / q.den)
    sign ++ toString (scaled / 10 ^ (k + 1)) ++ "." ++
      padZeros (toString (scaled % 10 ^ (k + 1))) (k + 1)
  | Option.none => toString q.num ++ "/" ++ toString q.den

/-- Newline plus the indentation of the given depth, or nothing when
dumping without indent (the error branches of the tools). -/
def nlIndent (ind : Option Nat) (depth : Nat) : String :=
  match ind with
  | Option.none => ""
  | some n => "\n" ++ String.mk (List.replicate (n * depth) ' ')

/-- Separator json.dumps places between items: ", " without indent, a
comma plus newline plus indentation with indent. -/
def itemSep (ind : Option Nat) (depth : Nat) : String :=
  match ind with
  | Option.none => ", "
  | some n => "," ++ nlIndent (some n) depth

mutual
/-- Python json.dumps of a value, with optional indent (the source uses
plain json.dumps(data) on the error branch and json.dumps(x, indent=2) on
the success branch). -/
def dumpsV (ind : Option Nat) (depth : Nat) : PyVal → String
  | .none => "null"
  | .bool b => if b then "true" else "false"
  | .int n => toString n
  | .rat q => floatRepr q
  | .str s => escString s
  | .list [] => "[]"
  | .list (x :: xs) =>
    "[" ++ nlIndent ind (depth + 1) ++ dumpsV ind (depth + 1) x ++
      dumpsItems ind (depth + 1) xs ++ nlIndent ind depth ++ "]"
  | .dict [] => "\x7b\x7d"
  | .dict ((k, v) :: xs) =>
    "\x7b" ++ nlIndent ind (depth + 1) ++ escString k ++ ": " ++
      dumpsV ind (depth + 1) v ++ dumpsFields ind (depth + 1) xs ++
      nlIndent ind depth ++ "\x7d"

/-- Remaining items of a list being dumped. -/
def dumpsItems (ind : Option Nat) (depth : Nat) : List PyVal → String
  | [] => ""
  | x :: xs => itemSep ind depth ++ dumpsV ind depth x ++ dumpsItems ind depth xs

/-- Remaining key-value items of a dict being dumped. -/
def dumpsFields (ind : Option Nat) (depth : Nat) : List (String × PyVal) → String
  | [] => ""
  | (k, v) :: xs =>
    itemSep ind depth ++ escString k ++ ": " ++ dumpsV ind depth v ++
      dumpsFields ind depth xs
end

/-- json.dumps(v), as on every error branch of the tools. -/
def dumps (v : PyVal) : String := dumpsV Option.none 0 v

/-- json.dumps(v, indent=2), as on every success branch of the tools. -/
def dumpsIndent2 (v : PyVal) : String := dumpsV (some 2) 0 v

example : dumps (.dict [("error", .str "boom")]) = "\x7b\"error\": \"boom\"\x7d" := rfl

example :
    dumpsIndent2 (.list [.int 1, .int 2]) = "[\n  1,\n  2\n]" := rfl

example : floatRepr 75 = "75.0" := rfl

example : floatRepr ⟨25999, 1000, by norm_num, by norm_num⟩ = "25.999" := by decide

/-- Half-to-even rounding of a rational to an integer: what Python round
does on the exact value of its float argument (ties, rare on binary
floats, go to the even neighbour). -/
def roundHalfEven (q : ℚ) : ℤ :=
  if q - (⌊q⌋ : ℚ) < 1 / 2 then ⌊q⌋
  else if 1 / 2 < q - (⌊q⌋ : ℚ) then ⌊q⌋ + 1
  else if Even ⌊q⌋ then ⌊q⌋ else ⌊q⌋ + 1

/-- Python round(x, 2) on the rational model of the float x, as applied to
each language percentage. -/
def round2 (q : ℚ) : ℚ := (roundHalfEven (q * 100) : ℚ) / 100

/-- Stable descending insertion by an integer key: the new element goes
before the first element whose key is not larger, so elements with equal
keys keep their original order. -/
def insertDescBy {α : Type} (key : α → Int) (x : α) : List α → List α
  | [] => [x]
  | y :: ys => if key x ≥ key y then x :: y :: ys else y :: insertDescBy key x ys

/-- Stable sort descending by an integer key: models Python
sorted(..., key=..., reverse=True), which is exactly a stable descending
sort on the key. -/
def sortDescBy {α : Type} (key : α → Int) : List α → List α
  | [] => []
  | x :: xs => insertDescBy key x (sortDescBy key xs)

/-- Translation of the GitHub API helper _make_github_request
(github_tools.py lines 20-28): the single GET either yields a JSON body or
fails, and a failure is converted into the structured object
with key "error" and the exception text prefixed by "API request failed: "
rather than raised. -/
def make_github_request (outcome : Except String PyVal) : PyVal :=
  match outcome with
  | .ok body => body
  | .error e => .dict [("error", .str ("API request failed: " ++ e))]

/-- Record built by get_repository_info (github_tools.py lines 50-67) from
a successful payload: sixteen named fields, the nested license object
flattened to its name, with None when license is absent or null. -/
def repoInfoRecord (data : PyVal) : PyM PyVal := do
  let name ← pyGet data "name"
  let full_name ← pyGet data "full_name"
  let description ← pyGet data "description"
  let language ← pyGet data "language"
  let stars ← pyGet data "stargazers_count"
  let forks ← pyGet data "forks_count"
  let open_issues ← pyGet data "open_issues_count"
  let created_at ← pyGet data "created_at"
  let updated_at ← pyGet data "updated_at"
  let size ← pyGet data "size"
  let default_branch ← pyGet data "default_branch"
  let topics ← pyGetD data "topics" (.list [])
  let licenseTest ← pyGet data "license"
  let license ←
    if pyTruthy licenseTest then do
      let licenseObj ← pyGetD data "license" (.dict [])
      pyGet licenseObj "name"
    else
      pure PyVal.none
  let homepage ← pyGet data "homepage"
  let clone_url ← pyGet data "clone_url"
  let ssh_url ← pyGet data "ssh_url"
  pure (.dict
    [("name", name), ("full_name", full_name), ("description", description),
     ("language", language), ("stars", stars), ("forks", forks),
     ("open_issues", open_issues), ("created_at", created_at),
     ("updated_at", updated_at), ("size", size),
     ("default_branch", default_branch), ("topics", topics),
     ("license", license), ("homepage", homepage), ("clone_url", clone_url),
     ("ssh_url", ssh_url)])

/-- Tool get_repository_info (github_tools.py lines 31-69), as a function
of the helper result data: on the error object it returns
json.dumps(data) unchanged, otherwise the projected record with indent=2. -/
def get_repository_info (data : PyVal) : PyM String := do
  if (← pyContains (.str "error") data) then
    return dumps data
  return dumpsIndent2 (← repoInfoRecord data)

/-- Percentage records of get_repository_languages (github_tools.py lines
90-99), from the item list of the upstream language map: percentage is
bytes divided by the total times 100 when the total is positive, else 0,
rounded to 2 decimals. -/
def languagesWithPercentages (items : List (String × Int)) :
    List (String × Int × ℚ) :=
  let total_bytes : Int := (items.map (fun it => it.2)).sum
  items.map (fun it =>
    (it.1, it.2,
      round2 (if total_bytes > 0 then (it.2 : ℚ) / (total_bytes : ℚ) * 100 else 0)))

/-- The sorted language records (github_tools.py lines 101-103): stable
descending by byte count. -/
def languagesSorted (items : List (String × Int)) : List (String × Int × ℚ) :=
  sortDescBy (fun r => r.2.1) (languagesWithPercentages items)

/-- Byte counts of the upstream language map must be integers for the sum
over values to go through (the languages endpoint returns integers; a
non-numeric value would raise TypeError in sum). -/
def pyIntVal : PyVal → PyM Int
  | .bool b => .ok (if b then 1 else 0)
  | .int n => .ok n
  | _ => .error "TypeError"

/-- Tool get_repository_languages (github_tools.py lines 72-105): error
passthrough, then percentage computation, stable descending sort by byte
count, and indent=2 encoding.  When the total is 0 the percentage stays
the integer 0 (round(0, 2) in Python is the int 0), otherwise it is a
float. -/
def get_repository_languages (data : PyVal) : PyM String := do
  if (← pyContains (.str "error") data) then
    return dumps data
  let items ← (do
    match data with
    | .dict xs => Except.ok xs
    | _ => Except.error "AttributeError")
  let intItems ← items.mapM (fun it => do
    let b ← pyIntVal it.2
    pure (it.1, b))
  let total_bytes : Int := (intItems.map (fun it => it.2)).sum
  return dumpsIndent2 (.dict ((languagesSorted intItems).map (fun r =>
    (r.1, PyVal.dict
      [("bytes", .int r.2.1),
       ("percentage", if total_bytes > 0 then .rat r.2.2 else .int 0)]))))

/-- Record built for one contributor (github_tools.py lines 130-135). -/
def contributorRecord (contributor : PyVal) : PyM PyVal := do
  let login ← pyGet contributor "login"
  let contributions ← pyGet contributor "contributions"
  let ctype ← pyGet contributor "type"
  let profile_url ← pyGet contributor "html_url"
  pure (.dict
    [("login", login), ("contributions", contributions), ("type", ctype),
     ("profile_url", profile_url)])

/-- Query parameters sent upstream by get_repository_contributors
(github_tools.py line 122): the requested page size clamped to the GitHub
maximum of 100. -/
def get_repository_contributors_params (per_page : Int) : List (String × PyVal) :=
  [("per_page", .int (min per_page 100))]

/-- Tool get_repository_contributors (github_tools.py lines 108-137) as a
function of the helper result. -/
def get_repository_contributors (data : PyVal) : PyM String := do
  if (← pyContains (.str "error") data) then
    return dumps data
  let elems ← pyListElems data
  let contributors ← elems.mapM contributorRecord
  return dumpsIndent2 (.list contributors)


/-- Record built for one issue (github_tools.py lines 167-178).  Note the
author field: issue.get("user", \x7b\x7d).get("login") substitutes the empty
dict only when the key "user" is absent; a present null user makes the
second .get raise AttributeError. -/
def issueRecord (issue : PyVal) : PyM PyVal := do
  let number ← pyGet issue "number"
  let title ← pyGet issue "title"
  let state ← pyGet issue "state"
  let created_at ← pyGet issue "created_at"
  let updated_at ← pyGet issue "updated_at"
  let labelsRaw ← pyGetD issue "labels" (.list [])
  let labelElems ← pyListElems labelsRaw
  let labels ← labelElems.mapM (fun label => pyGet label "name")
  let assigneesRaw ← pyGetD issue "assignees" (.list [])
  let assigneeElems ← pyListElems assigneesRaw
  let assignees ← assigneeElems.mapM (fun assignee => pyGet assignee "login")
  let comments ← pyGet issue "comments"
  let userObj ← pyGetD issue "user" (.dict [])
  let author ← pyGet userObj "login"
  let url ← pyGet issue "html_url"
  pure (.dict
    [("number", number), ("title", title), ("state", state),
     ("created_at", created_at), ("updated_at", updated_at),
     ("labels", .list labels), ("assignees", .list assignees),
     ("comments", comments), ("author", author), ("url", url)])

/-- The issue loop of get_repository_issues (github_tools.py lines
162-178): entries whose "pull_request" value is truthy are skipped (they
are pull requests co-mingled into the issues endpoint), the rest are
projected in order. -/
def issuesLoop : List PyVal → PyM (List PyVal)
  | [] => .ok []
  | issue :: rest => do
    let pr ← pyGet issue "pull_request"
    if pyTruthy pr then
      issuesLoop rest
    else do
      let record ← issueRecord issue
      let tail ← issuesLoop rest
      pure (record :: tail)

/-- Query parameters sent upstream by get_repository_issues
(github_tools.py line 155). -/
def get_repository_issues_params (state : String) (per_page : Int) :
    List (String × PyVal) :=
  [("state", .str state), ("per_page", .int (min per_page 100))]

/-- Tool get_repository_issues (github_tools.py lines 140-180) as a
function of the helper result. -/
def get_repository_issues (data : PyVal) : PyM String := do
  if (← pyContains (.str "error") data) then
    return dumps data
  let elems ← pyListElems data
  let issues ← issuesLoop elems
  return dumpsIndent2 (.list issues)

/-- Record built for one pull request (github_tools.py lines 206-222). -/
def pullRecord (pr : PyVal) : PyM PyVal := do
  let number ← pyGet pr "number"
  let title ← pyGet pr "title"
  let state ← pyGet pr "state"
  let created_at ← pyGet pr "created_at"
  let updated_at ← pyGet pr "updated_at"
  let merged_at ← pyGet pr "merged_at"
  let userObj ← pyGetD pr "user" (.dict [])
  let author ← pyGet userObj "login"
  let baseObj ← pyGetD pr "base" (.dict [])
  let base_branch ← pyGet baseObj "ref"
  let headObj ← pyGetD pr "head" (.dict [])
  let head_branch ← pyGet headObj "ref"
  let additions ← pyGet pr "additions"
  let deletions ← pyGet pr "deletions"
  let changed_files ← pyGet pr "changed_files"
  let comments ← pyGet pr "comments"
  let review_comments ← pyGet pr "review_comments"
  let url ← pyGet pr "html_url"
  pure (.dict
    [("number", number), ("title", title), ("state", state),
     ("created_at", created_at), ("updated_at", updated_at),
     ("merged_at", merged_at), ("author", author),
     ("base_branch", base_branch), ("head_branch", head_branch),
     ("additions", additions), ("deletions", deletions),
     ("changed_files", changed_files), ("comments", comments),
     ("review_comments", review_comments), ("url", url)])

/-- Query parameters sent upstream by get_repository_pulls
(github_tools.py line 198). -/
def get_repository_pulls_params (state : String) (per_page : Int) :
    List (String × PyVal) :=
  [("state", .str state), ("per_page", .int (min per_page 100))]

/-- Tool get_repository_pulls (github_tools.py lines 183-224) as a
function of the helper result. -/
def get_repository_pulls (data : PyVal) : PyM String := do
  if (← pyContains (.str "error") data) then
    return dumps data
  let elems ← pyListElems data
  let pulls ← elems.mapM pullRecord
  return dumpsIndent2 (.list pulls)

/-- The body expression of github_tools.py line 258 applied to the value
of release.get("body", ""): the length test runs first, and on a body
longer than 500 the first 500 characters get "..." appended.  A present
null body reaches len(None), a TypeError. -/
def truncateReleaseBody (body : PyVal) : PyM PyVal := do
  let n ← pyLen body
  if n > 500 then
    match body with
    | .str s => pure (.str (s.take 500 ++ "..."))
    | _ => .error "TypeError"
  else
    pure body

/-- Record built for one release (github_tools.py lines 249-260). -/
def releaseRecord (release : PyVal) : PyM PyVal := do
  let name ← pyGet release "name"
  let tag_name ← pyGet release "tag_name"
  let published_at ← pyGet release "published_at"
  let created_at ← pyGet release "created_at"
  let authorObj ← pyGetD release "author" (.dict [])
  let author ← pyGet authorObj "login"
  let prerelease ← pyGet release "prerelease"
  let draft ← pyGet release "draft"
  let assetsRaw ← pyGetD release "assets" (.list [])
  let assets_count ← pyLen assetsRaw
  let bodyRaw ← pyGetD release "body" (.str "")
  let body ← truncateReleaseBody bodyRaw
  let url ← pyGet release "html_url"
  pure (.dict
    [("name", name), ("tag_name", tag_name), ("published_at", published_at),
     ("created_at", created_at), ("author", author),
     ("prerelease", prerelease), ("draft", draft),
     ("assets_count", .int assets_count), ("body", body), ("url", url)])

/-- Query parameters sent upstream by get_repository_releases
(github_tools.py line 241). -/
def get_repository_releases_params (per_page : Int) : List (String × PyVal) :=
  [("per_page", .int (min per_page 100))]

/-- Tool get_repository_releases (github_tools.py lines 227-262) as a
function of the helper result. -/
def get_repository_releases (data : PyVal) : PyM String := do
  if (← pyContains (.str "error") data) then
    return dumps data
  let elems ← pyListElems data
  let releases ← elems.mapM releaseRecord
  return dumpsIndent2 (.list releases)

/-- Record built for one found repository (github_tools.py lines 298-311),
with the same license flattening as repository info. -/
def searchRepoRecord (repo : PyVal) : PyM PyVal := do
  let name ← pyGet repo "name"
  let full_name ← pyGet repo "full_name"
  let description ← pyGet repo "description"
  let language ← pyGet repo "language"
  let stars ← pyGet repo "stargazers_count"
  let forks ← pyGet repo "forks_count"
  let open_issues ← pyGet repo "open_issues_count"
  let created_at ← pyGet repo "created_at"
  let updated_at ← pyGet repo "updated_at"
  let topics ← pyGetD repo "topics" (.list [])
  let licenseTest ← pyGet repo "license"
  let license ←
    if pyTruthy licenseTest then do
      let licenseObj ← pyGetD repo "license" (.dict [])
      pyGet licenseObj "name"
    else
      pure PyVal.none
  let url ← pyGet repo "html_url"
  pure (.dict
    [("name", name), ("full_name", full_name), ("description", description),
     ("language", language), ("stars", stars), ("forks", forks),
     ("open_issues", open_issues), ("created_at", created_at),
     ("updated_at", updated_at), ("topics", topics), ("license", license),
     ("url", url)])

/-- Query parameters sent upstream by search_repositories (github_tools.py
lines 280-285). -/
def search_repositories_params (query : String) (sort : String)
    (order : String) (per_page : Int) : List (String × PyVal) :=
  [("q", .str query), ("sort", .str sort), ("order", .str order),
   ("per_page", .int (min per_page 100))]

/-- Tool search_repositories (github_tools.py lines 265-313) as a function
of the helper result. -/
def search_repositories (data : PyVal) : PyM String := do
  if (← pyContains (.str "error") data) then
    return dumps data
  let total_count ← pyGet data "total_count"
  let incomplete_results ← pyGet data "incomplete_results"
  let itemsRaw ← pyGetD data "items" (.list [])
  let itemElems ← pyListElems itemsRaw
  let repositories ← itemElems.mapM searchRepoRecord
  return dumpsIndent2 (.dict
    [("total_count", total_count),
     ("incomplete_results", incomplete_results),
     ("repositories", .list repositories)])

/-- One call to the Tavily search API: the arguments web_search passes to
tavily_client.search (web_search_tools.py lines 40-44). -/
structure SearchCall where
  query : String
  max_results : Int
  search_depth : String
deriving DecidableEq

/-- The Tavily client, abstracted as the outcome of its single search
operation: a JSON response, or an exception. -/
abbrev TavilyClient := SearchCall → Except String PyVal

/-- Truthiness of an optional environment-variable string: unset and the
empty string are falsy. -/
def pyStrTruthy : Option String → Bool
  | Option.none => false
  | some s => s != ""

/-- Module initialization of web_search_tools.py lines 11-16: the client
is constructed only when TAVILY_API_KEY is truthy, and a constructor
exception is swallowed, leaving the client None. -/
def tavily_client_init (TAVILY_API_KEY : Option String)
    (constructed : Except String TavilyClient) : Option TavilyClient :=
  if pyStrTruthy TAVILY_API_KEY then constructed.toOption else Option.none

/-- Predicate is_tavily_configured (web_search_tools.py lines 71-73):
bool(TAVILY_API_KEY and tavily_client). -/
def is_tavily_configured (TAVILY_API_KEY : Option String)
    (tavily_client : Option TavilyClient) : Bool :=
  pyStrTruthy TAVILY_API_KEY && tavily_client.isSome

/-- The configuration error string of web_search_tools.py line 30. -/
def tavilyNotConfiguredMsg : String :=
  "Tavily API key not configured. Set TAVILY_API_KEY environment variable."

/-- Tool web_search (web_search_tools.py lines 19-68), as a function of
the module client.  Besides the returned JSON string it also yields the
list of search calls performed, so that clamping of max_results and the
absence of network activity on the unconfigured path are visible.  The
try/except around the call and the result loop converts any exception
into the "Web search failed: " error object. -/
def web_search (tavily_client : Option TavilyClient) (query : String)
    (max_results : Int) : String × List SearchCall :=
  match tavily_client with
  | Option.none =>
    (dumps (.dict [("error", .str tavilyNotConfiguredMsg)]), [])
  | some client =>
    let call : SearchCall := ⟨query, min max_results 5, "basic"⟩
    let attempt : PyM String := do
      let response ← client call
      let resultsRaw ← pyGetD response "results" (.list [])
      let resultElems ← pyListElems resultsRaw
      let results ← resultElems.mapM (fun result => do
        let title ← pyGetD result "title" (.str "")
        let url ← pyGetD result "url" (.str "")
        let content ← pyGetD result "content" (.str "")
        let published_date ← pyGetD result "published_date" (.str "")
        let score ← pyGetD result "score" (.int 0)
        pure (PyVal.dict
          [("title", title), ("url", url), ("content", content),
           ("published_date", published_date), ("score", score)]))
      pure (dumpsIndent2 (.dict
        [("query", .str query), ("results", .list results)]))
    (match attempt with
     | .ok s => s
     | .error e => dumps (.dict [("error", .str ("Web search failed: " ++ e))]),
     [call])

/-- The tools the agent can register (github_agent.py lines 59-72). -/
inductive AgentTool where
  | repositoryInfo : AgentTool
  | repositoryLanguages : AgentTool
  | repositoryContributors : AgentTool
  | repositoryIssues : AgentTool
  | repositoryPulls : AgentTool
  | repositoryReleases : AgentTool
  | searchRepositories : AgentTool
  | webSearch : AgentTool
deriving DecidableEq

/-- The tool list built in GitHubProjectAnalyst.__init__ (github_agent.py
lines 59-72): the seven data-fetch tools always, web_search appended
exactly when is_tavily_configured() is true. -/
def init_tools_list (tavilyConfigured : Bool) : List AgentTool :=
  [.repositoryInfo, .repositoryLanguages, .repositoryContributors,
   .repositoryIssues, .repositoryPulls, .repositoryReleases,
   .searchRepositories] ++
  (if tavilyConfigured then [.webSearch] else [])

/-- Agent state visible in github_agent.py: the registered tool list and
the sessions created so far. -/
structure AgentState where
  tools : List AgentTool
  sessions : List String

/-- GitHubProjectAnalyst.__init__ (github_agent.py lines 30-94): the tool
list is fixed at construction. -/
def gitHubProjectAnalystInit (tavilyConfigured : Bool) : AgentState :=
  { tools := init_tools_list tavilyConfigured, sessions := [] }

/-- The operations of GitHubProjectAnalyst after construction:
create_session (lines 96-103) and _chat (lines 105-122).  Neither method
touches self.agent.tools. -/
inductive AgentOp where
  | create_session (session_name : String) : AgentOp
  | chat (message : String) (session_id : String) : AgentOp

/-- Effect of one method call on the agent state: create_session records a
session; _chat only exchanges messages with the oracle. -/
def applyAgentOp (s : AgentState) : AgentOp → AgentState
  | .create_session n => { s with sessions := s.sessions ++ [n] }
  | .chat _ _ => s

/-- A whole lifetime of an agent instance: any sequence of method calls
after construction. -/
def runAgentOps (s : AgentState) (ops : List AgentOp) : AgentState :=
  ops.foldl applyAgentOp s

/-- Reduction of a successful bind in the exception monad. -/
theorem pyM_ok_bind {α β : Type} (a : α) (f : α → PyM β) :
    (Except.ok a >>= f) = f a := rfl

/-- Membership in a stable descending insertion. -/
theorem mem_insertDescBy {α : Type} (key : α → Int) (x y : α) (l : List α) :
    x ∈ insertDescBy key y l ↔ x = y ∨ x ∈ l := by
  induction l with
  | nil => simp [insertDescBy]
  | cons z zs ih =>
    by_cases h : key y ≥ key z
    · simp [insertDescBy, h, List.mem_cons]
    · simp only [insertDescBy, if_neg h, List.mem_cons, ih]
      tauto

/-- Sorting does not change membership. -/
theorem mem_sortDescBy {α : Type} (key : α → Int) (x : α) (l : List α) :
    x ∈ sortDescBy key l ↔ x ∈ l := by
  induction l with
  | nil => simp [sortDescBy]
  | cons y ys ih => simp [sortDescBy, mem_insertDescBy, ih]

/-- Scanning the keys of a dict for "error" with Python equality is
exactly a key lookup. -/
theorem anyKeys_eq_lookup (xs : List (String × PyVal)) :
    (xs.any (fun kv => pyEq (.str "error") (.str kv.1))) =
      (pyLookup xs "error").isSome := by
  induction xs with
  | nil => rfl
  | cons kv rest ih =>
    obtain ⟨k, v⟩ := kv
    by_cases hk : k = "error"
    · subst hk; simp [pyEq, pyLookup]
    · have hbeq : ("error" == k) = false := beq_eq_false_iff_ne.mpr (Ne.symm hk)
      simp only [pyEq] at ih
      simp [pyEq, pyLookup, hk, hbeq, ih]

/-- On a dict, the test "error" in data of every tool is exactly the
presence of the key "error". -/
theorem pyContains_error_dict (xs : List (String × PyVal)) :
    pyContains (.str "error") (.dict xs) = .ok ((pyLookup xs "error").isSome) := by
  simp [pyContains, anyKeys_eq_lookup]

/-- C1: for every one of the seven data-fetch tools, when the HTTP client
helper returns the error object with key "error", the tool returns exactly
json.dumps of that object — no normalization, projection or other
transformation is applied to it. -/
theorem c1_error_object_passthrough (msg : String) :
    (get_repository_info (make_github_request (.error msg)) =
      .ok (dumps (make_github_request (.error msg)))) ∧
    (get_repository_languages (make_github_request (.error msg)) =
      .ok (dumps (make_github_request (.error msg)))) ∧
    (get_repository_contributors (make_github_request (.error msg)) =
      .ok (dumps (make_github_request (.error msg)))) ∧
    (get_repository_issues (make_github_request (.error msg)) =
      .ok (dumps (make_github_request (.error msg)))) ∧
    (get_repository_pulls (make_github_request (.error msg)) =
      .ok (dumps (make_github_request (.error msg)))) ∧
    (get_repository_releases (make_github_request (.error msg)) =
      .ok (dumps (make_github_request (.error msg)))) ∧
    (search_repositories (make_github_request (.error msg)) =
      .ok (dumps (make_github_request (.error msg)))) :=
  ⟨rfl, rfl, rfl, rfl, rfl, rfl, rfl⟩

/-- C2 is refuted by the code on legal upstream payloads with null-valued
fields: a release whose "body" is null drives len(None) into a TypeError
inside get_repository_releases, and an issue whose "user" is null drives
None.get("login") into an AttributeError inside get_repository_issues, so
neither call returns a JSON string at all. -/
theorem c2_null_fields_raise :
    (get_repository_releases (.list [.dict [("body", PyVal.none)]]) =
      .error "TypeError") ∧
    (get_repository_issues (.list [.dict [("user", PyVal.none)]]) =
      .error "AttributeError") :=
  ⟨rfl, rfl⟩

/-- C3: on the language map with Python at 300 bytes and JS at 100 bytes
the tool computes 75.0 and 25.0 percent and lists Python before JS
(descending byte count), both at the record level and through the whole
tool; for every input map every output percentage is bytes over total
times 100 (0 when the total is not positive) rounded to 2 decimals; the
empty map gives total 0 and no records, with no division error since the
positivity test guards the division. -/
theorem c3_language_percentages :
    (languagesSorted [("Python", 300), ("JS", 100)] =
      [("Python", 300, 75), ("JS", 100, 25)]) ∧
    (get_repository_languages (.dict [("Python", .int 300), ("JS", .int 100)]) =
      .ok (dumpsIndent2 (.dict
        [("Python", .dict [("bytes", .int 300), ("percentage", .rat 75)]),
         ("JS", .dict [("bytes", .int 100), ("percentage", .rat 25)])]))) ∧
    (∀ (items : List (String × Int)) (l : String) (b : Int) (p : ℚ),
      (l, b, p) ∈ languagesSorted items →
      p = round2 (if (items.map (fun it => it.2)).sum > 0
        then (b : ℚ) / (((items.map (fun it => it.2)).sum : Int) : ℚ) * 100
        else 0)) ∧
    (languagesSorted [] = [] ∧
      (([] : List (String × Int)).map (fun it => it.2)).sum = 0) := by
  have hrec : languagesSorted [("Python", 300), ("JS", 100)] =
      [("Python", 300, 75), ("JS", 100, 25)] := by
    simp [languagesSorted, languagesWithPercentages, sortDescBy, insertDescBy]
    constructor <;> norm_num [round2, roundHalfEven]
  refine ⟨hrec, ?_, ?_, rfl, rfl⟩
  · have step1 : get_repository_languages
        (.dict [("Python", .int 300), ("JS", .int 100)]) =
        .ok (dumpsIndent2 (.dict ((languagesSorted [("Python", 300), ("JS", 100)]).map
          (fun r => (r.1, PyVal.dict
            [("bytes", .int r.2.1), ("percentage", .rat r.2.2)]))))) := rfl
    rw [step1, hrec]
    rfl
  · intro items l b p hmem
    simp only [languagesSorted] at hmem
    rw [mem_sortDescBy] at hmem
    simp only [languagesWithPercentages, List.mem_map, Prod.mk.injEq] at hmem
    obtain ⟨it, _, h1, h2, h3⟩ := hmem
    subst h1; subst h2; subst h3
    rfl

/-- Witness for C3: the universal percentage statement instantiated on the
Python record of the concrete map. -/
theorem c3_language_percentages_witness :
    (75 : ℚ) = round2 (if ([("Python", (300 : Int)), ("JS", 100)].map
        (fun it => it.2)).sum > 0
      then ((300 : Int) : ℚ) /
        ((([("Python", (300 : Int)), ("JS", 100)].map (fun it => it.2)).sum : Int) : ℚ) * 100
      else 0) := by
  have h := c3_language_percentages
  exact h.2.2.1 [("Python", 300), ("JS", 100)] "Python" 300 75 (by rw [h.1]; simp)

/-- Whether an issue entry carries a "pull_request" key. -/
def hasPRfield : PyVal → Bool
  | .dict xs => (pyLookup xs "pull_request").isSome
  | _ => false

/-- Shape of issue entries as the GitHub issues endpoint returns them:
objects whose "pull_request" field, when present, is a non-empty object
(the endpoint sets it to an object of URLs exactly on entries that are
pull requests, and never to null or an empty object). -/
def upstreamIssueLegal : PyVal → Prop
  | .dict xs =>
    pyLookup xs "pull_request" = Option.none ∨
    ∃ l, l ≠ [] ∧ pyLookup xs "pull_request" = some (.dict l)
  | _ => False

/-- C4: on every upstream issue list the issues tool drops exactly the
entries carrying a pull_request field and projects the rest in order; in
particular on a two-entry list with one pull request and one plain issue
the output holds exactly the record of the plain issue. -/
theorem c4_issues_drop_pull_requests :
    (∀ entries : List PyVal, (∀ e ∈ entries, upstreamIssueLegal e) →
      issuesLoop entries =
        (entries.filter (fun e => ! hasPRfield e)).mapM issueRecord) ∧
    (get_repository_issues (.list
      [.dict [("number", .int 1), ("title", .str "Add feature"),
              ("pull_request", .dict [("url", .str "https://x")])],
       .dict [("number", .int 2), ("title", .str "Bug")]]) =
      .ok (dumpsIndent2 (.list
        [.dict [("number", .int 2), ("title", .str "Bug"), ("state", .none),
                ("created_at", .none), ("updated_at", .none),
                ("labels", .list []), ("assignees", .list []),
                ("comments", .none), ("author", .none), ("url", .none)]]))) := by
  refine ⟨?_, rfl⟩
  intro entries hleg
  induction entries with
  | nil => rfl
  | cons e rest ih =>
    have he : upstreamIssueLegal e := hleg e (List.mem_cons_self _ _)
    have hrest := ih (fun x hx => hleg x (List.mem_cons_of_mem _ hx))
    match e, he with
    | .dict xs, he =>
      rcases he with hnone | ⟨l, hl, hsome⟩
      · have hget : pyGet (.dict xs) "pull_request" = .ok PyVal.none := by
          simp [pyGet, pyGetD, hnone]
        have hfield : hasPRfield (.dict xs) = false := by
          simp [hasPRfield, hnone]
        simp only [issuesLoop, hget, pyM_ok_bind, pyTruthy, List.filter, hfield,
          Bool.not_false, List.mapM_cons, hrest]
        rfl
      · have hget : pyGet (.dict xs) "pull_request" = .ok (.dict l) := by
          simp [pyGet, pyGetD, hsome]
        have hfield : hasPRfield (.dict xs) = true := by
          simp [hasPRfield, hsome]
        have htruthy : pyTruthy (.dict l) = true := by
          simp [pyTruthy, hl]
        simp only [issuesLoop, hget, pyM_ok_bind, htruthy, if_true, List.filter,
          hfield, Bool.not_true, hrest]

/-- Witness for C4: the filter statement applied to a concrete two-entry
list, one pull request and one plain issue. -/
theorem c4_issues_drop_pull_requests_witness :
    issuesLoop
      [.dict [("number", .int 1), ("pull_request", .dict [("url", .str "u")])],
       .dict [("number", .int 2)]] =
      ([PyVal.dict [("number", .int 1), ("pull_request", .dict [("url", .str "u")])],
        PyVal.dict [("number", .int 2)]].filter
          (fun e => ! hasPRfield e)).mapM issueRecord := by
  apply c4_issues_drop_pull_requests.1
  intro e he
  simp only [List.mem_cons, List.not_mem_nil, or_false] at he
  rcases he with rfl | rfl
  · exact Or.inr ⟨[("url", .str "u")], by simp, rfl⟩
  · exact Or.inl rfl


/-- C5: whenever the release body is a string longer than 500 characters,
the body expression of the releases tool yields its first 500 characters
with the ellipsis marker appended, and the whole tool returns that
truncated body in the release record; a body of at most 500 characters
comes back unchanged.  The claimed 600- and 400-character cases are the
witness instances. -/
theorem c5_release_body_truncation (s : String) :
    (s.length > 500 →
      truncateReleaseBody (.str s) = .ok (.str (s.take 500 ++ "...")) ∧
      get_repository_releases (.list [.dict [("body", .str s)]]) =
        .ok (dumpsIndent2 (.list
          [.dict [("name", .none), ("tag_name", .none), ("published_at", .none),
                  ("created_at", .none), ("author", .none), ("prerelease", .none),
                  ("draft", .none), ("assets_count", .int 0),
                  ("body", .str (s.take 500 ++ "...")), ("url", .none)]]))) ∧
    (s.length ≤ 500 →
      truncateReleaseBody (.str s) = .ok (.str s) ∧
      get_repository_releases (.list [.dict [("body", .str s)]]) =
        .ok (dumpsIndent2 (.list
          [.dict [("name", .none), ("tag_name", .none), ("published_at", .none),
                  ("created_at", .none), ("author", .none), ("prerelease", .none),
                  ("draft", .none), ("assets_count", .int 0),
                  ("body", .str s), ("url", .none)]]))) := by
  constructor
  · intro h
    have hi : ((s.length : Int) > 500) := by exact_mod_cast h
    have htr : truncateReleaseBody (.str s) = .ok (.str (s.take 500 ++ "...")) := by
      simp [truncateReleaseBody, pyLen, pyM_ok_bind, hi]
      rfl
    refine ⟨htr, ?_⟩
    simp [get_repository_releases, pyContains, pyEq, pyNum, pyListElems,
      List.mapM, List.mapM.loop, releaseRecord, pyGet, pyGetD, pyLookup,
      pyLen, pyM_ok_bind, htr]
  · intro h
    have hi : ¬ ((s.length : Int) > 500) := by
      simp only [not_lt]
      exact_mod_cast h
    have htr : truncateReleaseBody (.str s) = .ok (.str s) := by
      simp [truncateReleaseBody, pyLen, pyM_ok_bind, hi]
      rfl
    refine ⟨htr, ?_⟩
    simp [get_repository_releases, pyContains, pyEq, pyNum, pyListElems,
      List.mapM, List.mapM.loop, releaseRecord, pyGet, pyGetD, pyLookup,
      pyLen, pyM_ok_bind, htr]

/-- Witness for C5: a 600-character body is cut to its first 500
characters plus the marker; a 400-character body is unchanged. -/
theorem c5_release_body_truncation_witness :
    truncateReleaseBody (.str (String.mk (List.replicate 600 'a'))) =
      .ok (.str ((String.mk (List.replicate 600 'a')).take 500 ++ "...")) ∧
    truncateReleaseBody (.str (String.mk (List.replicate 400 'b'))) =
      .ok (.str (String.mk (List.replicate 400 'b'))) :=
  ⟨((c5_release_body_truncation (String.mk (List.replicate 600 'a'))).1
      (by decide)).1,
   ((c5_release_body_truncation (String.mk (List.replicate 400 'b'))).2
      (by decide)).1⟩

/-- C6: whenever the requested contributors page size exceeds 100, the
query parameters the tool sends upstream carry per_page exactly 100. -/
theorem c6_contributors_page_clamp (per_page : Int) (h : per_page > 100) :
    get_repository_contributors_params per_page = [("per_page", .int 100)] := by
  simp [get_repository_contributors_params, min_eq_right h.le]

/-- Witness for C6: requesting 500 contributors sends per_page 100. -/
theorem c6_contributors_page_clamp_witness :
    get_repository_contributors_params 500 = [("per_page", .int 100)] :=
  c6_contributors_page_clamp 500 (by norm_num)

/-- C7: with no search key configured the companion predicate is false and
the web-search tool immediately returns the configuration error object,
performing no search call at all; on every configured invocation the
single search call carries min(max_results, 5), which never exceeds 5. -/
theorem c7_web_search_configuration :
    (∀ (TAVILY_API_KEY : Option String) (constructed : Except String TavilyClient)
        (query : String) (max_results : Int),
      pyStrTruthy TAVILY_API_KEY = false →
        is_tavily_configured TAVILY_API_KEY
          (tavily_client_init TAVILY_API_KEY constructed) = false ∧
        web_search (tavily_client_init TAVILY_API_KEY constructed) query max_results =
          (dumps (.dict [("error", .str tavilyNotConfiguredMsg)]), [])) ∧
    (∀ (client : TavilyClient) (query : String) (max_results : Int),
      (web_search (some client) query max_results).2 =
        [⟨query, min max_results 5, "basic"⟩] ∧
      min max_results 5 ≤ 5) := by
  constructor
  · intro key ctor q m h
    simp [is_tavily_configured, h, tavily_client_init, web_search]
  · intro client q m
    exact ⟨rfl, min_le_right _ _⟩

/-- Witness for C7: an unset key leaves the predicate false and yields the
configuration error with no call, and a configured request for 20 results
calls the search with 5. -/
theorem c7_web_search_configuration_witness :
    (is_tavily_configured Option.none
      (tavily_client_init Option.none (.error "down")) = false ∧
     web_search (tavily_client_init Option.none (.error "down")) "news" 20 =
      (dumps (.dict [("error", .str tavilyNotConfiguredMsg)]), [])) ∧
    (web_search (some (fun _ => .error "net")) "news" 20).2 =
      [⟨"news", 5, "basic"⟩] := by
  refine ⟨c7_web_search_configuration.1 Option.none (.error "down") "news" 20 rfl, ?_⟩
  have h := (c7_web_search_configuration.2 (fun _ => .error "net") "news" 20).1
  rw [h]
  norm_num

/-- The field names of the normalized repository-info record, in the order
the source lists them (github_tools.py lines 50-67). -/
def repoInfoFieldNames : List String :=
  ["name", "full_name", "description", "language", "stars", "forks",
   "open_issues", "created_at", "updated_at", "size", "default_branch",
   "topics", "license", "homepage", "clone_url", "ssh_url"]

/-- The item list of the normalized repository-info record of a payload
with item list xs, given the flattened license value. -/
def repoInfoFields (xs : List (String × PyVal)) (license : PyVal) :
    List (String × PyVal) :=
  [("name", (pyLookup xs "name").getD .none),
   ("full_name", (pyLookup xs "full_name").getD .none),
   ("description", (pyLookup xs "description").getD .none),
   ("language", (pyLookup xs "language").getD .none),
   ("stars", (pyLookup xs "stargazers_count").getD .none),
   ("forks", (pyLookup xs "forks_count").getD .none),
   ("open_issues", (pyLookup xs "open_issues_count").getD .none),
   ("created_at", (pyLookup xs "created_at").getD .none),
   ("updated_at", (pyLookup xs "updated_at").getD .none),
   ("size", (pyLookup xs "size").getD .none),
   ("default_branch", (pyLookup xs "default_branch").getD .none),
   ("topics", (pyLookup xs "topics").getD (.list [])),
   ("license", license),
   ("homepage", (pyLookup xs "homepage").getD .none),
   ("clone_url", (pyLookup xs "clone_url").getD .none),
   ("ssh_url", (pyLookup xs "ssh_url").getD .none)]

/-- Closed form of the repository-info record on a dict payload: the
license conditional decides the flattened value, every other field is a
plain lookup with default None (topics defaults to the empty list). -/
theorem repoInfoRecord_dict (xs : List (String × PyVal)) :
    repoInfoRecord (.dict xs) =
      if pyTruthy ((pyLookup xs "license").getD PyVal.none) then
        pyGet ((pyLookup xs "license").getD (.dict [])) "name" >>= fun license =>
          Except.ok (.dict (repoInfoFields xs license))
      else Except.ok (.dict (repoInfoFields xs PyVal.none)) := rfl

/-- Counterexample to C8: already on the one-field payload the normalized
repository-info record has 16 fields, not 15. -/
theorem c8_fifteen_fields_counterexample :
    repoInfoRecord (.dict [("name", .str "demo")]) =
      .ok (.dict (repoInfoFields [("name", .str "demo")] PyVal.none)) ∧
    (repoInfoFields [("name", .str "demo")] PyVal.none).length ≠ 15 :=
  ⟨rfl, by decide⟩

/-- C8 as amended: every successful repository-info record consists of
exactly 16 named fields, and the nested license object is flattened to its
name — None when the license is absent or null, the license objects name
lookup otherwise. -/
theorem c8_sixteen_named_fields :
    (∀ data r : PyVal, repoInfoRecord data = .ok r →
      ∃ fields, r = .dict fields ∧ fields.map Prod.fst = repoInfoFieldNames ∧
        fields.length = 16) ∧
    (∀ xs, pyLookup xs "license" = Option.none →
      repoInfoRecord (.dict xs) = .ok (.dict (repoInfoFields xs PyVal.none))) ∧
    (∀ xs v, pyLookup xs "license" = some v → pyTruthy v = false →
      repoInfoRecord (.dict xs) = .ok (.dict (repoInfoFields xs PyVal.none))) ∧
    (∀ xs l, pyLookup xs "license" = some (.dict l) → pyTruthy (.dict l) = true →
      repoInfoRecord (.dict xs) =
        .ok (.dict (repoInfoFields xs ((pyLookup l "name").getD PyVal.none)))) ∧
    (∀ xs license, pyLookup (repoInfoFields xs license) "license" = some license) := by
  refine ⟨?_, ?_, ?_, ?_, fun xs license => rfl⟩
  · intro data r h
    match data with
    | .none => exact Except.noConfusion h
    | .bool _ => exact Except.noConfusion h
    | .int _ => exact Except.noConfusion h
    | .rat _ => exact Except.noConfusion h
    | .str _ => exact Except.noConfusion h
    | .list _ => exact Except.noConfusion h
    | .dict xs =>
      rw [repoInfoRecord_dict] at h
      by_cases hc : pyTruthy ((pyLookup xs "license").getD PyVal.none)
      · rw [if_pos hc] at h
        match hv : (pyLookup xs "license").getD (.dict []) with
        | .dict l =>
          rw [hv, show pyGet (.dict l) "name" =
              .ok ((pyLookup l "name").getD .none) from rfl, pyM_ok_bind] at h
          cases h
          exact ⟨_, rfl, rfl, rfl⟩
        | .none => rw [hv] at h; exact Except.noConfusion h
        | .bool _ => rw [hv] at h; exact Except.noConfusion h
        | .int _ => rw [hv] at h; exact Except.noConfusion h
        | .rat _ => rw [hv] at h; exact Except.noConfusion h
        | .str _ => rw [hv] at h; exact Except.noConfusion h
        | .list _ => rw [hv] at h; exact Except.noConfusion h
      · rw [if_neg hc] at h
        cases h
        exact ⟨_, rfl, rfl, rfl⟩
  · intro xs h
    rw [repoInfoRecord_dict, h]
    rfl
  · intro xs v h hv
    rw [repoInfoRecord_dict, h]
    simp [Option.getD, hv]
  · intro xs l h hl
    rw [repoInfoRecord_dict, h]
    simp [Option.getD, hl]
    rfl

/-- Witness for C8: the record of the empty payload has the 16 field
names. -/
theorem c8_sixteen_named_fields_witness :
    ∃ fields, PyVal.dict (repoInfoFields [] PyVal.none) = PyVal.dict fields ∧
      fields.map Prod.fst = repoInfoFieldNames ∧ fields.length = 16 :=
  c8_sixteen_named_fields.1 (.dict []) (.dict (repoInfoFields [] PyVal.none)) rfl

/-- C9: at startup the registered tool list always holds the seven
data-fetch tools, holds the web-search tool exactly when the configuration
predicate is true — so its length is 8 or 7 — and no later method call on
the agent instance changes it. -/
theorem c9_tool_registration (cfg : Bool) (ops : List AgentOp) :
    (AgentTool.repositoryInfo ∈ init_tools_list cfg ∧
     AgentTool.repositoryLanguages ∈ init_tools_list cfg ∧
     AgentTool.repositoryContributors ∈ init_tools_list cfg ∧
     AgentTool.repositoryIssues ∈ init_tools_list cfg ∧
     AgentTool.repositoryPulls ∈ init_tools_list cfg ∧
     AgentTool.repositoryReleases ∈ init_tools_list cfg ∧
     AgentTool.searchRepositories ∈ init_tools_list cfg) ∧
    (AgentTool.webSearch ∈ init_tools_list cfg ↔ cfg = true) ∧
    (init_tools_list cfg).length = (if cfg then 8 else 7) ∧
    (runAgentOps (gitHubProjectAnalystInit cfg) ops).tools = init_tools_list cfg := by
  have htools : ∀ (s : AgentState) (l : List AgentOp),
      (runAgentOps s l).tools = s.tools := by
    intro s l
    induction l generalizing s with
    | nil => rfl
    | cons op rest ih =>
      have hstep : runAgentOps s (op :: rest) = runAgentOps (applyAgentOp s op) rest := rfl
      rw [hstep, ih]
      cases op <;> rfl
  refine ⟨?_, ?_, ?_, htools _ _⟩
  · cases cfg <;> decide
  · cases cfg <;> decide
  · cases cfg <;> decide

/-- C10: the tools decide failure purely by presence of a top-level key
"error": a successful languages payload that happens to contain a language
literally named "error" is treated as a failure and dumped raw without
normalization, and likewise for the repository-info payload; on every dict
payload the membership test the tools run is exactly that key lookup. -/
theorem c10_error_key_detection :
    (∀ xs : List (String × PyVal), (pyLookup xs "error").isSome →
      get_repository_languages (.dict xs) = .ok (dumps (.dict xs))) ∧
    (∀ xs : List (String × PyVal), (pyLookup xs "error").isSome →
      get_repository_info (.dict xs) = .ok (dumps (.dict xs))) ∧
    (∀ xs : List (String × PyVal),
      pyContains (.str "error") (.dict xs) = .ok ((pyLookup xs "error").isSome)) := by
  refine ⟨?_, ?_, pyContains_error_dict⟩
  · intro xs h
    simp only [get_repository_languages, pyContains_error_dict, h, pyM_ok_bind,
      if_true]
    rfl
  · intro xs h
    simp only [get_repository_info, pyContains_error_dict, h, pyM_ok_bind,
      if_true]
    rfl

/-- Witness for C10: a languages map carrying a language named "error"
next to Python is dumped raw as a failure. -/
theorem c10_error_key_detection_witness :
    get_repository_languages
      (.dict [("error", .int 300), ("Python", .int 100)]) =
      .ok (dumps (.dict [("error", .int 300), ("Python", .int 100)])) :=
  c10_error_key_detection.1 [("error", .int 300), ("Python", .int 100)] (by decide)
